import Mathlib

/-!
Verification of the perception-driven synchronization engine of the
VibeCoding_Automatic_game_script repository.

Shallow embedding of the decision core of src/main.py together with the
matching and readiness helpers of src/utils/screen.py and the constants of
src/config.py.  External collaborators (the cv2.matchTemplate pipeline, the
window/capture/input providers, the process supervisor, wall-clock time) are
modelled as oracle inputs: every poll iteration of a wait loop consumes one
scripted observation record, exactly as section 5 of the spec describes the
engine ("capture -> evaluate -> sleep -> repeat").  Scores are exact rationals,
and numpy byte arrays are shapes plus flattened contents.
-/

namespace Limbus

/-! ## Configuration constants (src/config.py) -/

/-- config.STATE_TIMEOUTS for key S1_WAIT_LOGIN (seconds). -/
def STATE_TIMEOUTS_S1_WAIT_LOGIN : ℚ := 30

/-- config.STATE_TIMEOUTS for key S2_CLICK_LOGIN (seconds). -/
def STATE_TIMEOUTS_S2_CLICK_LOGIN : ℚ := 5

/-- config.STATE_TIMEOUTS for key S3_WAIT_MAINMENU (seconds). -/
def STATE_TIMEOUTS_S3_WAIT_MAINMENU : ℚ := 45

/-- config.GAME_READY_TIMEOUT (seconds). -/
def GAME_READY_TIMEOUT : ℚ := 180

/-- config.CLICK_COOLDOWN (seconds): minimum interval between injected clicks. -/
def CLICK_COOLDOWN : ℚ := 5 / 2

/-- config.TEMPLATE_MATCH_THRESHOLD: the fixed global match threshold 0.85. -/
def TEMPLATE_MATCH_THRESHOLD : ℚ := 17 / 20

/-! ## numpy images -/

/-- A numpy ndarray of unsigned bytes: its shape together with its flattened
contents, as produced by the capture providers of src/utils/screen.py. -/
structure NDImage where
  shape : List Nat
  data : List Nat
deriving DecidableEq

/-- ndarray.ndim: the number of dimensions. -/
def NDImage.ndim (a : NDImage) : Nat := a.shape.length

/-- ndarray.size: the product of all dimensions. -/
def NDImage.size (a : NDImage) : Nat := a.shape.prod

/-- ndarray.shape[i], defaulting to 0 out of range. -/
def NDImage.dim (a : NDImage) (i : Nat) : Nat := a.shape.getD i 0

/-- A well-formed ndarray stores exactly size-many bytes. -/
def NDImage.WF (a : NDImage) : Prop := a.data.length = a.size

/-! ## Grayscale conversion (the cv2.cvtColor calls of is_mostly_black) -/

/-- Gray value of one BGR pixel: the ITU-R 601 luma used by cv2, with the
weights as exact rationals and the result rounded to the nearest byte. -/
def lumaByte (b g r : Nat) : Nat := (299 * r + 587 * g + 114 * b + 500) / 1000

/-- cv2.cvtColor with COLOR_BGRA2GRAY on flattened data: each BGRA quadruple
becomes one gray byte (the alpha byte is ignored). -/
def grayOfBGRA : List Nat → List Nat
  | b :: g :: r :: _ :: rest => lumaByte b g r :: grayOfBGRA rest
  | _ => []

/-- cv2.cvtColor with COLOR_BGR2GRAY on flattened data: each BGR triple
becomes one gray byte. -/
def grayOfBGR : List Nat → List Nat
  | b :: g :: r :: rest => lumaByte b g r :: grayOfBGR rest
  | _ => []

/-- The grayscale pixel list that screen.is_mostly_black computes for a given
capture: 4-channel captures go through BGRA2GRAY, other 3-dimensional captures
through BGR2GRAY, and 2-dimensional captures are already gray. -/
def grayPixels (a : NDImage) : List Nat :=
  if a.ndim = 3 then
    if a.dim 2 = 4 then grayOfBGRA a.data else grayOfBGR a.data
  else a.data

/-- screen.is_mostly_black from src/utils/screen.py: an image of size zero is
mostly black; otherwise the image is mostly black when the grayscale mean does
not exceed mean_threshold, or the fraction of non-zero gray pixels does not
exceed nonzeroFrac.  The callers use the source defaults 1.0 and 0.01. -/
def is_mostly_black (image : NDImage) (mean_threshold nonzeroFrac : ℚ) : Bool :=
  if image.size = 0 then true
  else
    let gray := grayPixels image
    let mean_val : ℚ := (gray.sum : ℚ) / (gray.length : ℚ)
    let frac : ℚ := ((gray.countP (fun x => x != 0) : Nat) : ℚ) / (gray.length : ℚ)
    decide (mean_val ≤ mean_threshold) || decide (frac ≤ nonzeroFrac)

/-! ## Template matching (screen.template_match) -/

/-- A template image as decoded by cv2.imread with IMREAD_COLOR: a 3-channel
BGR bitmap of the given height and width. -/
structure Template where
  height : Nat
  width : Nat
  data : List Nat
deriving DecidableEq

/-- A template asset path, as seen by template_match: whether the path is a
file on disk, and what cv2.imread decodes from it (none when decoding fails). -/
structure TemplateFile where
  is_file : Bool
  decoded : Option Template
deriving DecidableEq

/-- cv2.cvtColor with COLOR_BGRA2BGR: drop the alpha byte of each pixel. -/
def bgraToBgr : List Nat → List Nat
  | b :: g :: r :: _ :: rest => b :: g :: r :: bgraToBgr rest
  | _ => []

/-- cv2.cvtColor with COLOR_RGB2BGR: swap the first and third channel of each
pixel. -/
def rgbToBgr : List Nat → List Nat
  | x :: y :: z :: rest => z :: y :: x :: rgbToBgr rest
  | _ => []

/-- The channel normalisation template_match performs before comparing:
4-channel frames are converted BGRA2BGR, other 3-dimensional frames RGB2BGR,
and anything else is used as is.  Height and width are unchanged. -/
def normalizeChannels (screen : NDImage) : NDImage :=
  if screen.ndim = 3 ∧ screen.dim 2 = 4 then
    ⟨[screen.dim 0, screen.dim 1, 3], bgraToBgr screen.data⟩
  else if screen.ndim = 3 then
    ⟨[screen.dim 0, screen.dim 1, 3], rgbToBgr screen.data⟩
  else screen

/-- The external cv2.matchTemplate + cv2.minMaxLoc pipeline, abstracted as an
oracle: from the normalised haystack and the template it yields the best
normalised-correlation score and the top-left (x, y) of the best alignment. -/
def MatchOracle : Type := NDImage → Template → ℚ × Nat × Nat

/-- screen.template_match from src/utils/screen.py.  Missing or undecodable
template files and frames smaller than the template yield (false, none, 0);
otherwise the oracle's best score max_val is compared inclusively against
TEMPLATE_MATCH_THRESHOLD, and on a match the reported location is the centre
of the best-scoring bounding box.  The function is total: every failure mode
is an ordinary return value, never an exception. -/
def template_match (mt : MatchOracle) (screen : NDImage) (tf : TemplateFile) :
    Bool × Option (Nat × Nat) × ℚ :=
  if ¬ tf.is_file then (false, none, 0)
  else
    match tf.decoded with
    | none => (false, none, 0)
    | some template =>
      let haystack := normalizeChannels screen
      if haystack.dim 0 < template.height ∨ haystack.dim 1 < template.width then
        (false, none, 0)
      else
        let r := mt haystack template
        let max_val := r.1
        let max_loc := r.2
        if ¬ (max_val ≥ TEMPLATE_MATCH_THRESHOLD) then (false, none, max_val)
        else
          (true,
           some (max_loc.1 + template.width / 2, max_loc.2 + template.height / 2),
           max_val)

/-! ## The state machine (src/main.py) -/

/-- The State enum of src/main.py. -/
inductive State
  | S0_START
  | S1_WAIT_LOGIN
  | S2_CLICK_LOGIN
  | S3_WAIT_MAINMENU
  | S_OK
  | S_FAIL
deriving DecidableEq

/-- The failure reasons StateMachine passes to StateMachine.fail, one
constructor per f-string of src/main.py; the score payloads carry the values
the source interpolates into the message. -/
inductive Reason
  | processNotFound
  | readyTimeout
  | focusFailed
  | clickFocusFailed
  | noSafeClickPoint
  | noConnecting
  | loginFocusFailed
  | loginNoSafePoint
  | loginTimeout (bestMainmenu bestConnecting : ℚ)
  | mainmenuTimeout (best : ℚ)
  | exceptionCaught (e : String)
deriving DecidableEq

/-- The observable record of one call to StateMachine.fail: the state it was
called in, the reason, and the routine's fixed effects — the diagnostic
screenshot is saved, the game process is asked to terminate (kill defaults to
True at every call site), and the run exits with sys.exit(1). -/
structure FailRecord where
  state : State
  reason : Reason
  screenshotSaved : Bool
  killRequested : Bool
  exitCode : Nat
deriving DecidableEq

/-- StateMachine.fail from src/main.py: log the reason, save a failure
screenshot, terminate the game process, and exit with code 1. -/
def fail (st : State) (r : Reason) : FailRecord := ⟨st, r, true, true, 1⟩

/-! ## wait_game_ready (readiness sub-policy of the Start state) -/

/-- One scripted poll iteration of StateMachine.wait_game_ready: the wall
clock at the loop guard, whether get_window_handle found a handle, what
focus_window would return for it, and the capture_window_with_info result
(reported width and height, plus the captured image). -/
structure ReadyPoll where
  tGuard : ℚ
  hwnd : Bool
  focus_ok : Bool
  width : Nat
  height : Nat
  image : NDImage
deriving DecidableEq

/-- Result of the readiness wait: ready after skipping a number of polls,
timed out (the source returns False), or the script ran out. -/
inductive ReadyRes
  | ready (skipped : Nat)
  | timedOut
  | outOfScript
deriving DecidableEq

/-- StateMachine.wait_game_ready from src/main.py, as a loop over scripted
polls: each iteration inside the deadline declares readiness when either a
window handle exists and focus was granted, or the captured frame has valid
non-zero dimensions and is not mostly black. -/
def wait_game_ready (start : ℚ) : List ReadyPoll → ReadyRes
  | [] => .outOfScript
  | p :: rest =>
    if GAME_READY_TIMEOUT < p.tGuard - start then .timedOut
    else
      let has_hwnd := p.hwnd
      let focused := if p.hwnd then p.focus_ok else false
      let is_valid_shape := decide (0 < p.width) && decide (0 < p.height)
      let black := is_mostly_black p.image 1 (1 / 100)
      if (has_hwnd && focused) || (is_valid_shape && !black) then .ready 0
      else
        match wait_game_ready start rest with
        | .ready n => .ready (n + 1)
        | r => r

/-! ## wait_for_marker and wait_for_transition -/

/-- One scripted poll iteration of a single-marker wait: the wall clock at the
loop guard, whether this iteration's capture or match raises an exception, and
otherwise the template_match triple (matched, pos, score) observed. -/
structure MarkerPoll where
  tGuard : ℚ
  raises : Option String
  matched : Bool
  pos : Option (Nat × Nat)
  score : ℚ
deriving DecidableEq

/-- Result of wait_for_marker: a normal return carrying the pos component
(none on timeout, as in the source's return None path), a propagating
exception, or script exhaustion. -/
inductive MarkerRes
  | done (pos : Option (Nat × Nat))
  | raised (e : String)
  | outOfScript
deriving DecidableEq

/-- Instrumented output of wait_for_marker: its result, the final best_score
field, the scores that triggered a best-score update (in order), the value of
best_score after each completed iteration, and every score observed. -/
structure MarkerOut where
  res : MarkerRes
  best : ℚ
  updates : List ℚ
  bestTrace : List ℚ
  scores : List ℚ
deriving DecidableEq

/-- StateMachine.wait_for_marker from src/main.py: best_score starts at the
caller-supplied value (-1.0 at the call site), each in-deadline iteration
observes one score, updates best_score when the score strictly exceeds it, and
returns as soon as a poll matches. -/
def wait_for_marker (timeout start best : ℚ) : List MarkerPoll → MarkerOut
  | [] => ⟨.outOfScript, best, [], [], []⟩
  | p :: rest =>
    if timeout < p.tGuard - start then ⟨.done none, best, [], [], []⟩
    else
      match p.raises with
      | some e => ⟨.raised e, best, [], [], []⟩
      | none =>
        let b := if best < p.score then p.score else best
        let u : List ℚ := if best < p.score then [p.score] else []
        if p.matched then ⟨.done p.pos, b, u, [b], [p.score]⟩
        else
          let o := wait_for_marker timeout start b rest
          ⟨o.res, o.best, u ++ o.updates, b :: o.bestTrace, p.score :: o.scores⟩

/-- Result of wait_for_transition: the boolean the source returns, a
propagating exception, or script exhaustion. -/
inductive TransRes
  | done (b : Bool)
  | raised (e : String)
  | outOfScript
deriving DecidableEq

/-- StateMachine.wait_for_transition from src/main.py: poll for the expected
marker until it matches (True) or the deadline passes (False). -/
def wait_for_transition (timeout start : ℚ) : List MarkerPoll → TransRes
  | [] => .outOfScript
  | p :: rest =>
    if timeout < p.tGuard - start then .done false
    else
      match p.raises with
      | some e => .raised e
      | none =>
        if p.matched then .done true else wait_for_transition timeout start rest

/-! ## wait_login_with_safe_clicks (multi-marker WaitLogin variant) -/

/-- One scripted poll iteration of wait_login_with_safe_clicks: the wall clock
at the loop guard, whether the capture/match raises, the template_match hit
flag and score for the connecting and the main-menu markers, the wall clock
read for the click decision, the ensure_foreground result, and the safe click
point (none when window_safe_click_point fails). -/
structure LoginPoll where
  tGuard : ℚ
  raises : Option String
  connHit : Bool
  connScore : ℚ
  mainHit : Bool
  mainScore : ℚ
  tNow : ℚ
  fgOk : Bool
  safePoint : Option (Int × Int)
deriving DecidableEq

/-- Result of wait_login_with_safe_clicks: the next state it returns, a call
to StateMachine.fail (the source's return None paths, reached only after
sys.exit), a propagating exception, or script exhaustion. -/
inductive LoginRes
  | next (s : State)
  | failed (r : Reason)
  | raised (e : String)
  | outOfScript
deriving DecidableEq

/-- Instrumented output of wait_login_with_safe_clicks: its result, the times
recorded into self.last_click_ts by injected clicks (in order), the final
best_connecting and best_mainmenu fields, the scores that triggered updates of
each tracker, the tracker values after each completed iteration, and every
observed score of each marker. -/
structure LoginOut where
  res : LoginRes
  clicks : List ℚ
  best_connecting : ℚ
  best_mainmenu : ℚ
  connUpdates : List ℚ
  mainUpdates : List ℚ
  connTrace : List ℚ
  mainTrace : List ℚ
  connScores : List ℚ
  mainScores : List ℚ
deriving DecidableEq

/-- StateMachine.wait_login_with_safe_clicks from src/main.py: both best-score
trackers start at -1.0 at the call site; each in-deadline iteration matches
the connecting marker (returning S3_WAIT_MAINMENU on a hit), then the
main-menu marker (returning S_OK on a hit), then injects a safe click only
when the time since the last recorded click has reached CLICK_COOLDOWN,
otherwise skips the click and re-observes. -/
def wait_login_with_safe_clicks (timeout start last_click best_c best_m : ℚ) :
    List LoginPoll → LoginOut
  | [] => ⟨.outOfScript, [], best_c, best_m, [], [], [], [], [], []⟩
  | p :: rest =>
    if timeout < p.tGuard - start then
      ⟨.failed (.loginTimeout best_m best_c), [], best_c, best_m,
        [], [], [], [], [], []⟩
    else
      match p.raises with
      | some e => ⟨.raised e, [], best_c, best_m, [], [], [], [], [], []⟩
      | none =>
        let bc := if best_c < p.connScore then p.connScore else best_c
        let uc : List ℚ := if best_c < p.connScore then [p.connScore] else []
        if p.connHit then
          ⟨.next .S3_WAIT_MAINMENU, [], bc, best_m, uc, [], [bc], [],
            [p.connScore], []⟩
        else
          let bm := if best_m < p.mainScore then p.mainScore else best_m
          let um : List ℚ := if best_m < p.mainScore then [p.mainScore] else []
          if p.mainHit then
            ⟨.next .S_OK, [], bc, bm, uc, um, [bc], [bm],
              [p.connScore], [p.mainScore]⟩
          else
            if p.tNow - last_click < CLICK_COOLDOWN then
              let o := wait_login_with_safe_clicks timeout start last_click bc bm rest
              ⟨o.res, o.clicks, o.best_connecting, o.best_mainmenu,
                uc ++ o.connUpdates, um ++ o.mainUpdates,
                bc :: o.connTrace, bm :: o.mainTrace,
                p.connScore :: o.connScores, p.mainScore :: o.mainScores⟩
            else if ¬ p.fgOk then
              ⟨.failed .loginFocusFailed, [], bc, bm, uc, um, [bc], [bm],
                [p.connScore], [p.mainScore]⟩
            else
              match p.safePoint with
              | none =>
                ⟨.failed .loginNoSafePoint, [], bc, bm, uc, um, [bc], [bm],
                  [p.connScore], [p.mainScore]⟩
              | some _ =>
                let o := wait_login_with_safe_clicks timeout start p.tNow bc bm rest
                ⟨o.res, p.tNow :: o.clicks, o.best_connecting, o.best_mainmenu,
                  uc ++ o.connUpdates, um ++ o.mainUpdates,
                  bc :: o.connTrace, bm :: o.mainTrace,
                  p.connScore :: o.connScores, p.mainScore :: o.mainScores⟩

/-! ## StateMachine.run -/

/-- One scripted run of the whole engine: the ensure_game_running outcome, the
readiness-wait script, the ensure_foreground outcome entering S1, the WaitLogin
script, the (dead) ClickLogin branch's scripted collaborators, and the
WaitMainMenu script. -/
structure Script where
  ensure_game_running : Bool
  readyStart : ℚ
  readyPolls : List ReadyPoll
  fg0 : Bool
  loginStart : ℚ
  loginPolls : List LoginPoll
  s2fg : Bool
  s2SafePoint : Option (Int × Int)
  s2Start : ℚ
  s2Polls : List MarkerPoll
  menuStart : ℚ
  menuPolls : List MarkerPoll
deriving DecidableEq

/-- Result of a run: the success return after the S_OK branch, a call to
StateMachine.fail (covering the top-level exception handler as well), or
script exhaustion. -/
inductive RunResult
  | success
  | failure (f : FailRecord)
  | outOfScript
deriving DecidableEq

/-- The while-True dispatcher of StateMachine.run, with explicit fuel (the
source's only cycle is the S_FAIL state, which no branch handles; on it the
source spins forever and the model runs out of fuel).  The returned list is
the trace of values taken by the local variable state, in order.  Exceptions
escaping a wait are caught here and routed to StateMachine.fail with the
current state and the exception description, as the source's top-level
try/except does. -/
def runLoop (sc : Script) : Nat → State → List State → RunResult × List State
  | 0, _, trace => (.outOfScript, trace)
  | fuel + 1, state, trace =>
    match state with
    | .S0_START =>
      if ¬ sc.ensure_game_running then
        (.failure (fail .S0_START .processNotFound), trace)
      else
        match wait_game_ready sc.readyStart sc.readyPolls with
        | .timedOut => (.failure (fail .S0_START .readyTimeout), trace)
        | .outOfScript => (.outOfScript, trace)
        | .ready _ =>
          if ¬ sc.fg0 then (.failure (fail .S0_START .focusFailed), trace)
          else runLoop sc fuel .S1_WAIT_LOGIN (trace ++ [.S1_WAIT_LOGIN])
    | .S1_WAIT_LOGIN =>
      match (wait_login_with_safe_clicks STATE_TIMEOUTS_S1_WAIT_LOGIN
          sc.loginStart 0 (-1) (-1) sc.loginPolls).res with
      | .next s => runLoop sc fuel s (trace ++ [s])
      | .failed r => (.failure (fail .S1_WAIT_LOGIN r), trace)
      | .raised e => (.failure (fail .S1_WAIT_LOGIN (.exceptionCaught e)), trace)
      | .outOfScript => (.outOfScript, trace)
    | .S2_CLICK_LOGIN =>
      if ¬ sc.s2fg then (.failure (fail .S2_CLICK_LOGIN .clickFocusFailed), trace)
      else
        match sc.s2SafePoint with
        | none => (.failure (fail .S2_CLICK_LOGIN .noSafeClickPoint), trace)
        | some _ =>
          match wait_for_transition STATE_TIMEOUTS_S2_CLICK_LOGIN sc.s2Start sc.s2Polls with
          | .done true => runLoop sc fuel .S3_WAIT_MAINMENU (trace ++ [.S3_WAIT_MAINMENU])
          | .done false => (.failure (fail .S2_CLICK_LOGIN .noConnecting), trace)
          | .raised e => (.failure (fail .S2_CLICK_LOGIN (.exceptionCaught e)), trace)
          | .outOfScript => (.outOfScript, trace)
    | .S3_WAIT_MAINMENU =>
      match (wait_for_marker STATE_TIMEOUTS_S3_WAIT_MAINMENU sc.menuStart (-1) sc.menuPolls).res with
      | .done none =>
        (.failure (fail .S3_WAIT_MAINMENU (.mainmenuTimeout
          (wait_for_marker STATE_TIMEOUTS_S3_WAIT_MAINMENU sc.menuStart (-1) sc.menuPolls).best)),
         trace)
      | .done (some _) => (.success, trace ++ [.S_OK])
      | .raised e => (.failure (fail .S3_WAIT_MAINMENU (.exceptionCaught e)), trace)
      | .outOfScript => (.outOfScript, trace)
    | .S_OK => (.success, trace)
    | .S_FAIL => runLoop sc fuel .S_FAIL trace

/-- StateMachine.run from src/main.py: start in S0_START with it already
logged/visited, and dispatch with enough fuel for the longest acyclic path. -/
def run (sc : Script) : RunResult × List State :=
  runLoop sc 6 .S0_START [.S0_START]

/-- The transition table of spec section 4.1, as a relation on states: which
single-step transitions the table predicts (success and failure columns of
both WaitLogin variants included). -/
def specStep : State → State → Bool
  | .S0_START, .S1_WAIT_LOGIN => true
  | .S0_START, .S_FAIL => true
  | .S1_WAIT_LOGIN, .S2_CLICK_LOGIN => true
  | .S1_WAIT_LOGIN, .S3_WAIT_MAINMENU => true
  | .S1_WAIT_LOGIN, .S_OK => true
  | .S1_WAIT_LOGIN, .S_FAIL => true
  | .S2_CLICK_LOGIN, .S3_WAIT_MAINMENU => true
  | .S2_CLICK_LOGIN, .S_FAIL => true
  | .S3_WAIT_MAINMENU, .S_OK => true
  | .S3_WAIT_MAINMENU, .S_FAIL => true
  | _, _ => false

/-! ## Concrete demonstration inputs for witnesses and counterexamples -/

/-- An oracle whose best score is always 0 at the origin. -/
def oracleZero : MatchOracle := fun _ _ => (0, 0, 0)

/-- An oracle whose best score is always exactly the threshold 0.85. -/
def oracleBoundary : MatchOracle := fun _ _ => (17 / 20, 0, 0)

/-- A 1x1 two-dimensional frame. -/
def screenTiny : NDImage := ⟨[1, 1], [0]⟩

/-- A decoded 1x1 template. -/
def tmplTiny : Template := ⟨1, 1, [0, 0, 0]⟩

/-- A present and decodable template file holding tmplTiny. -/
def tfTiny : TemplateFile := ⟨true, some tmplTiny⟩

/-- A missing template file. -/
def tfMissing : TemplateFile := ⟨false, none⟩

/-- A bright 1x1 gray image, clearly not mostly black. -/
def imgBright : NDImage := ⟨[1, 1], [255]⟩

/-- A readiness poll whose handle exists but focus fails, while the captured
frame is non-degenerate and correctly sized: the disjunctive-policy case. -/
def readyDemo : ReadyPoll := ⟨0, true, false, 1, 1, imgBright⟩

/-- The exception message used in the fault-handling demonstration. -/
def boomMsg : String := "boom"

/-- A login poll whose capture raises an exception. -/
def loginRaisePoll : LoginPoll :=
  ⟨0, some boomMsg, false, 0, false, 0, 0, true, some (0, 0)⟩

/-- A script whose S0 collaborators all succeed and whose first WaitLogin poll
raises an exception. -/
def scriptRaise : Script :=
  ⟨true, 0, [readyDemo], true, 0, [loginRaisePoll], true, some (0, 0), 0, [], 0, []⟩

/-- A marker poll observing the perfectly anti-correlated valid score -1.0
without a match. -/
def markerNegPoll : MarkerPoll := ⟨0, none, false, none, -1⟩

/-! ## Matcher theorems -/

/-- Channel normalisation keeps the first two shape components. -/
theorem normalizeChannels_dim (s : NDImage) :
    (normalizeChannels s).dim 0 = s.dim 0 ∧ (normalizeChannels s).dim 1 = s.dim 1 := by
  unfold normalizeChannels
  split
  · exact ⟨rfl, rfl⟩
  · split
    · exact ⟨rfl, rfl⟩
    · exact ⟨rfl, rfl⟩

/-- Evaluation of template_match when the template loads and the frame is at
least template sized: the whole result is decided by comparing the oracle's
best score against the threshold. -/
theorem template_match_eq (mt : MatchOracle) (screen : NDImage)
    (tf : TemplateFile) (t : Template) (v : ℚ) (x y : Nat)
    (hfile : tf.is_file = true) (hdec : tf.decoded = some t)
    (hh : t.height ≤ screen.dim 0) (hw : t.width ≤ screen.dim 1)
    (hmt : mt (normalizeChannels screen) t = (v, x, y)) :
    template_match mt screen tf =
      if TEMPLATE_MATCH_THRESHOLD ≤ v then
        (true, some (x + t.width / 2, y + t.height / 2), v)
      else (false, none, v) := by
  have h0 := (normalizeChannels_dim screen).1
  have h1 := (normalizeChannels_dim screen).2
  have hng : ¬ ((normalizeChannels screen).dim 0 < t.height ∨
      (normalizeChannels screen).dim 1 < t.width) := by
    rw [h0, h1]
    omega
  unfold template_match
  rw [hfile, hdec]
  simp only [Bool.not_true, if_false, hng, if_neg, hmt]
  by_cases hv : TEMPLATE_MATCH_THRESHOLD ≤ v
  · simp [hv, ge_iff_le]
  · simp [hv, ge_iff_le]

/-- Claim C5: when the template loads and the frame is at least template
sized, a best score at or above TEMPLATE_MATCH_THRESHOLD yields matched = true
with the bounding-box centre of the best-scoring alignment as the location,
and a best score strictly below yields matched = false; the threshold boundary
is inclusive. -/
theorem template_match_threshold_inclusive (mt : MatchOracle) (screen : NDImage)
    (tf : TemplateFile) (t : Template) (v : ℚ) (x y : Nat)
    (hfile : tf.is_file = true) (hdec : tf.decoded = some t)
    (hh : t.height ≤ screen.dim 0) (hw : t.width ≤ screen.dim 1)
    (hmt : mt (normalizeChannels screen) t = (v, x, y)) :
    (TEMPLATE_MATCH_THRESHOLD ≤ v →
      template_match mt screen tf =
        (true, some (x + t.width / 2, y + t.height / 2), v)) ∧
    (v < TEMPLATE_MATCH_THRESHOLD →
      template_match mt screen tf = (false, none, v)) := by
  rw [template_match_eq mt screen tf t v x y hfile hdec hh hw hmt]
  constructor
  · intro hv
    rw [if_pos hv]
  · intro hv
    rw [if_neg (not_le.mpr hv)]

/-- Claim C5 witness: on a concrete frame and template, a score of exactly
0.85 is declared a match (inclusive boundary) with the centred location, and a
score of 0 is not. -/
theorem template_match_threshold_inclusive_witness :
    template_match oracleBoundary screenTiny tfTiny = (true, some (0, 0), 17 / 20) ∧
    template_match oracleZero screenTiny tfTiny = (false, none, 0) := by
  constructor
  · exact (template_match_threshold_inclusive oracleBoundary screenTiny tfTiny
      tmplTiny (17 / 20) 0 0 rfl rfl (by decide) (by decide) rfl).1
      (by norm_num [TEMPLATE_MATCH_THRESHOLD])
  · exact (template_match_threshold_inclusive oracleZero screenTiny tfTiny
      tmplTiny 0 0 0 rfl rfl (by decide) (by decide) rfl).2
      (by norm_num [TEMPLATE_MATCH_THRESHOLD])

/-- Claim C6: for every frame smaller than the template in either dimension,
and for every missing or undecodable template file, template_match returns
matched = false with score 0 and no location; the embedding is a total
function, so these paths return normally rather than raising. -/
theorem template_match_degenerate (mt : MatchOracle) (screen : NDImage)
    (tf : TemplateFile)
    (h : tf.is_file = false ∨ tf.decoded = none ∨
      ∀ t, tf.decoded = some t →
        screen.dim 0 < t.height ∨ screen.dim 1 < t.width) :
    template_match mt screen tf = (false, none, 0) := by
  unfold template_match
  rcases h with h | h | h
  · simp [h]
  · split
    · rfl
    · simp [h]
  · split
    · rfl
    · cases hd : tf.decoded with
      | none => simp
      | some t =>
        have hc : (normalizeChannels screen).dim 0 < t.height ∨
            (normalizeChannels screen).dim 1 < t.width := by
          rw [(normalizeChannels_dim screen).1, (normalizeChannels_dim screen).2]
          exact h t hd
        simp [hc]

/-- Claim C6 witness: a missing template file and a frame strictly smaller
than its template both produce the degenerate triple on concrete inputs. -/
theorem template_match_degenerate_witness :
    template_match oracleZero screenTiny tfMissing = (false, none, 0) ∧
    template_match oracleZero (⟨[0, 0], []⟩ : NDImage) tfTiny = (false, none, 0) := by
  constructor
  · exact template_match_degenerate oracleZero screenTiny tfMissing (Or.inl rfl)
  · exact template_match_degenerate oracleZero ⟨[0, 0], []⟩ tfTiny
      (Or.inr (Or.inr (by decide)))

/-- Claim C2 counterexample: on a frame at least as large as the template, so
that a best-scoring alignment exists, with a best score below the threshold,
template_match reports no location at all — location is not returned
independently of matched. -/
theorem template_match_location_cex :
    tmplTiny.height ≤ screenTiny.dim 0 ∧ tmplTiny.width ≤ screenTiny.dim 1 ∧
    (template_match oracleZero screenTiny tfTiny).1 = false ∧
    (template_match oracleZero screenTiny tfTiny).2.1 = none := by
  have h := template_match_eq oracleZero screenTiny tfTiny tmplTiny 0 0 0
    rfl rfl (by decide) (by decide) rfl
  rw [if_neg (by norm_num [TEMPLATE_MATCH_THRESHOLD])] at h
  exact ⟨by decide, by decide, by rw [h], by rw [h]⟩

/-- Claim C2 (amended): when the template loads and the frame is at least as
large as the template, the location is present exactly when matched is true,
and the best score is always returned alongside, even on non-match. -/
theorem template_match_location_iff_matched (mt : MatchOracle) (screen : NDImage)
    (tf : TemplateFile) (t : Template) (v : ℚ) (x y : Nat)
    (hfile : tf.is_file = true) (hdec : tf.decoded = some t)
    (hh : t.height ≤ screen.dim 0) (hw : t.width ≤ screen.dim 1)
    (hmt : mt (normalizeChannels screen) t = (v, x, y)) :
    ((template_match mt screen tf).1 = true ↔
      (template_match mt screen tf).2.1 ≠ none) ∧
    (template_match mt screen tf).2.2 = v := by
  rw [template_match_eq mt screen tf t v x y hfile hdec hh hw hmt]
  by_cases hv : TEMPLATE_MATCH_THRESHOLD ≤ v
  · rw [if_pos hv]
    simp
  · rw [if_neg hv]
    simp

/-- Claim C2 (amended) witness: on the concrete non-matching input the
location is absent, matched is false, and the score 0 is still returned. -/
theorem template_match_location_iff_matched_witness :
    ((template_match oracleZero screenTiny tfTiny).1 = true ↔
      (template_match oracleZero screenTiny tfTiny).2.1 ≠ none) ∧
    (template_match oracleZero screenTiny tfTiny).2.2 = 0 :=
  template_match_location_iff_matched oracleZero screenTiny tfTiny
    tmplTiny 0 0 0 rfl rfl (by decide) (by decide) rfl

/-! ## is_mostly_black totality -/

/-- A flattened buffer of at least one whole BGR pixel grays to a non-empty
list. -/
theorem grayOfBGR_pos (l : List Nat) (h : 3 ≤ l.length) :
    0 < (grayOfBGR l).length := by
  match l, h with
  | a :: b :: c :: rest, _ => simp [grayOfBGR]

/-- A flattened buffer of at least one whole BGRA pixel grays to a non-empty
list. -/
theorem grayOfBGRA_pos (l : List Nat) (h : 4 ≤ l.length) :
    0 < (grayOfBGRA l).length := by
  match l, h with
  | a :: b :: c :: d :: rest, _ => simp [grayOfBGRA]

/-- Claim C10: is_mostly_black is a total function on every input array; an
image of size zero is classified mostly black by the early guard before the
mean or the non-zero fraction is computed, and every non-empty well-formed
2-dimensional, 3-channel or 4-channel image yields the boolean computed from a
grayscale of positive length, so both divisions have a positive denominator. -/
theorem is_mostly_black_total (image : NDImage) :
    (image.size = 0 → is_mostly_black image 1 (1 / 100) = true) ∧
    (image.WF → image.size ≠ 0 →
      (image.ndim = 2 ∨ image.ndim = 3 ∧ (image.dim 2 = 3 ∨ image.dim 2 = 4)) →
      0 < (grayPixels image).length ∧
      is_mostly_black image 1 (1 / 100) =
        (decide (((grayPixels image).sum : ℚ) / ((grayPixels image).length : ℚ) ≤ 1) ||
         decide ((((grayPixels image).countP (fun x => x != 0) : Nat) : ℚ) /
           ((grayPixels image).length : ℚ) ≤ 1 / 100))) := by
  constructor
  · intro h
    simp [is_mostly_black, h]
  · intro hwf hnz hdims
    constructor
    · rcases hdims with h2 | ⟨h3, hc⟩
      · have hg : grayPixels image = image.data := by
          unfold grayPixels
          rw [h2]
          simp
        rw [hg]
        have := hwf
        unfold NDImage.WF at this
        omega
      · rcases image with ⟨shape, data⟩
        simp only [NDImage.ndim, NDImage.dim, NDImage.size, NDImage.WF] at h3 hc hnz hwf
        match shape, h3 with
        | [a, b, c], _ =>
          simp only [List.getD, List.prod_cons, List.prod_nil, mul_one] at hc hnz hwf ⊢
          have ha : 1 ≤ a := by
            rcases Nat.eq_zero_or_pos a with rfl | h
            · simp at hnz
            · exact h
          have hb : 1 ≤ b := by
            rcases Nat.eq_zero_or_pos b with rfl | h
            · simp at hnz
            · exact h
          rcases hc with rfl | rfl
          · have hlen : 3 ≤ data.length := by
              rw [hwf]
              calc 3 = 1 * (1 * 3) := by norm_num
              _ ≤ a * (b * 3) := by
                  exact Nat.mul_le_mul ha (Nat.mul_le_mul hb (le_refl 3))
            have hg : grayPixels ⟨[a, b, 3], data⟩ = grayOfBGR data := by
              unfold grayPixels NDImage.ndim NDImage.dim
              simp
            rw [hg]
            exact grayOfBGR_pos data hlen
          · have hlen : 4 ≤ data.length := by
              rw [hwf]
              calc 4 = 1 * (1 * 4) := by norm_num
              _ ≤ a * (b * 4) := by
                  exact Nat.mul_le_mul ha (Nat.mul_le_mul hb (le_refl 4))
            have hg : grayPixels ⟨[a, b, 4], data⟩ = grayOfBGRA data := by
              unfold grayPixels NDImage.ndim NDImage.dim
              simp
            rw [hg]
            exact grayOfBGRA_pos data hlen
    · unfold is_mostly_black
      rw [if_neg hnz]

/-! ## Readiness wait -/

/-- The boolean readiness condition of one wait_game_ready iteration, read as
a proposition: a handle with granted focus, or a validly sized frame that is
not mostly black. -/
theorem ready_cond_iff (p : ReadyPoll) :
    ((p.hwnd && (if p.hwnd then p.focus_ok else false)) ||
      ((decide (0 < p.width) && decide (0 < p.height)) &&
        !(is_mostly_black p.image 1 (1 / 100)))) = true ↔
    ((p.hwnd = true ∧ p.focus_ok = true) ∨
      (0 < p.width ∧ 0 < p.height ∧ is_mostly_black p.image 1 (1 / 100) = false)) := by
  cases hh : p.hwnd <;> cases hf : p.focus_ok <;>
    simp [hh, hf, and_assoc, Bool.not_eq_true']

/-- Claim C7: in every iteration of the readiness wait that runs within the
deadline, readiness is declared true exactly when either a window handle
exists and focus was granted, or the captured frame has valid non-zero
dimensions and is not classified mostly black; in particular, when the handle
exists but focus fails while the frame is non-degenerate and correctly sized,
readiness is still declared true. -/
theorem wait_game_ready_disjunctive (start : ℚ) (p : ReadyPoll)
    (rest : List ReadyPoll) (hdl : p.tGuard - start ≤ GAME_READY_TIMEOUT) :
    (wait_game_ready start (p :: rest) = .ready 0 ↔
      ((p.hwnd = true ∧ p.focus_ok = true) ∨
       (0 < p.width ∧ 0 < p.height ∧ is_mostly_black p.image 1 (1 / 100) = false))) ∧
    (p.hwnd = true → p.focus_ok = false → 0 < p.width → 0 < p.height →
      is_mostly_black p.image 1 (1 / 100) = false →
      wait_game_ready start (p :: rest) = .ready 0) := by
  have hng : ¬ (GAME_READY_TIMEOUT < p.tGuard - start) := not_lt.mpr hdl
  have hexp : wait_game_ready start (p :: rest) =
      (if ((p.hwnd && (if p.hwnd then p.focus_ok else false)) ||
          ((decide (0 < p.width) && decide (0 < p.height)) &&
            !(is_mostly_black p.image 1 (1 / 100)))) = true then ReadyRes.ready 0
       else
         match wait_game_ready start rest with
         | .ready n => .ready (n + 1)
         | r => r) := by
    simp only [wait_game_ready]
    rw [if_neg hng]
  rw [hexp]
  by_cases hc : ((p.hwnd && (if p.hwnd then p.focus_ok else false)) ||
      ((decide (0 < p.width) && decide (0 < p.height)) &&
        !(is_mostly_black p.image 1 (1 / 100)))) = true
  · rw [if_pos hc]
    exact ⟨⟨fun _ => (ready_cond_iff p).mp hc, fun _ => rfl⟩,
      fun _ _ _ _ _ => rfl⟩
  · rw [if_neg hc]
    constructor
    · constructor
      · intro h
        exfalso
        cases hr : wait_game_ready start rest <;> rw [hr] at h <;> simp at h
      · intro hrhs
        exact absurd ((ready_cond_iff p).mpr hrhs) hc
    · intro h1 h2 h3 h4 h5
      exact absurd ((ready_cond_iff p).mpr (Or.inr ⟨h3, h4, h5⟩)) hc

/-- Claim C7 witness: on the concrete poll whose handle exists but focus
fails, with a bright correctly sized 1x1 frame, the readiness wait declares
ready in that very iteration. -/
theorem wait_game_ready_disjunctive_witness :
    readyDemo.tGuard - 0 ≤ GAME_READY_TIMEOUT ∧
    wait_game_ready 0 [readyDemo] = .ready 0 := by
  have hdl : readyDemo.tGuard - 0 ≤ GAME_READY_TIMEOUT := by
    norm_num [readyDemo, GAME_READY_TIMEOUT]
  have hblack : is_mostly_black imgBright 1 (1 / 100) = false := by
    simp only [is_mostly_black, imgBright, NDImage.size, NDImage.ndim, grayPixels,
      NDImage.dim]
    norm_num
  exact ⟨hdl, (wait_game_ready_disjunctive 0 readyDemo [] hdl).2
    rfl rfl (by decide) (by decide) hblack⟩

/-! ## Best-score trackers -/

/-- The source's update step, written as a binary maximum. -/
theorem if_update_eq_max (b s : ℚ) : (if b < s then s else b) = max b s := by
  rcases lt_trichotomy b s with h | h | h
  · rw [if_pos h, max_eq_right (le_of_lt h)]
  · rw [h, if_neg (lt_irrefl s), max_self]
  · rw [if_neg (not_lt.mpr (le_of_lt h)), max_eq_left (le_of_lt h)]

/-- A left fold by max never drops below its starting value. -/
theorem le_foldl_max (l : List ℚ) : ∀ b : ℚ, b ≤ l.foldl max b := by
  induction l with
  | nil => intro b; exact le_refl b
  | cons s t ih => intro b; exact le_trans (le_max_left b s) (ih (max b s))

/-- A left fold by max bounds every list element. -/
theorem mem_le_foldl_max (l : List ℚ) : ∀ b x, x ∈ l → x ≤ l.foldl max b := by
  induction l with
  | nil => intro b x hx; cases hx
  | cons s t ih =>
    intro b x hx
    rcases List.mem_cons.mp hx with rfl | hx
    · exact le_trans (le_max_right b x) (le_foldl_max t (max b x))
    · exact ih (max b s) x hx

/-- A left fold by max is attained: it is the start value or a list element. -/
theorem foldl_max_attained (l : List ℚ) : ∀ b, l.foldl max b = b ∨ l.foldl max b ∈ l := by
  induction l with
  | nil => intro b; exact Or.inl rfl
  | cons s t ih =>
    intro b
    rcases ih (max b s) with h | h
    · rcases max_cases b s with ⟨he, _⟩ | ⟨he, _⟩
      · exact Or.inl (by rw [List.foldl_cons, h, he])
      · exact Or.inr (by rw [List.foldl_cons, h, he]; exact List.mem_cons_self s t)
    · exact Or.inr (List.mem_cons_of_mem s h)

/-- Across one single-marker wait, the final tracker is the fold of the
observed scores by max over the start value, and the per-iteration tracker
values form a non-decreasing chain from the start value. -/
theorem wait_for_marker_best (timeout start : ℚ) (polls : List MarkerPoll) :
    ∀ b : ℚ,
      (wait_for_marker timeout start b polls).best =
        (wait_for_marker timeout start b polls).scores.foldl max b ∧
      List.Chain' (· ≤ ·) (b :: (wait_for_marker timeout start b polls).bestTrace) := by
  induction polls with
  | nil => intro b; simp [wait_for_marker]
  | cons p rest ih =>
    intro b
    simp only [wait_for_marker]
    by_cases ht : timeout < p.tGuard - start
    · rw [if_pos ht]
      simp
    rw [if_neg ht]
    rcases hr : p.raises with _ | e
    swap
    · simp [hr]
    simp only [hr]
    rw [if_update_eq_max b p.score]
    by_cases hm : p.matched = true
    · rw [if_pos hm]
      exact ⟨rfl, List.chain'_pair.mpr (le_max_left b p.score)⟩
    · rw [if_neg hm]
      dsimp only
      obtain ⟨h1, h2⟩ := ih (max b p.score)
      exact ⟨by rw [List.foldl_cons]; exact h1,
        List.chain'_cons.mpr ⟨le_max_left b p.score, h2⟩⟩

/-- A first marker poll inside the deadline that raises nothing and scores
strictly above the tracker registers a best-score update. -/
theorem wait_for_marker_first_update (timeout start b : ℚ) (p : MarkerPoll)
    (rest : List MarkerPoll) (hdl : p.tGuard - start ≤ timeout)
    (hr : p.raises = none) (hs : b < p.score) :
    (wait_for_marker timeout start b (p :: rest)).updates.head? = some p.score := by
  simp only [wait_for_marker]
  rw [if_neg (not_lt.mpr hdl)]
  simp only [hr]
  simp only [if_pos hs]
  by_cases hm : p.matched = true
  · rw [if_pos hm]
    rfl
  · rw [if_neg hm]
    rfl

/-- Across one WaitLogin wait, each tracker's final value is the fold of its
observed scores by max over its start value, and its per-iteration values form
a non-decreasing chain from the start value. -/
theorem wait_login_best (timeout start : ℚ) (polls : List LoginPoll) :
    ∀ lc bc bm : ℚ,
      (wait_login_with_safe_clicks timeout start lc bc bm polls).best_connecting =
        (wait_login_with_safe_clicks timeout start lc bc bm polls).connScores.foldl max bc ∧
      List.Chain' (· ≤ ·)
        (bc :: (wait_login_with_safe_clicks timeout start lc bc bm polls).connTrace) ∧
      (wait_login_with_safe_clicks timeout start lc bc bm polls).best_mainmenu =
        (wait_login_with_safe_clicks timeout start lc bc bm polls).mainScores.foldl max bm ∧
      List.Chain' (· ≤ ·)
        (bm :: (wait_login_with_safe_clicks timeout start lc bc bm polls).mainTrace) := by
  induction polls with
  | nil => intro lc bc bm; simp [wait_login_with_safe_clicks]
  | cons p rest ih =>
    intro lc bc bm
    simp only [wait_login_with_safe_clicks]
    by_cases ht : timeout < p.tGuard - start
    · rw [if_pos ht]
      simp
    rw [if_neg ht]
    rcases hr : p.raises with _ | e
    swap
    · simp [hr]
    simp only [hr]
    rw [if_update_eq_max bc p.connScore]
    by_cases hch : p.connHit = true
    · rw [if_pos hch]
      exact ⟨rfl, List.chain'_pair.mpr (le_max_left bc p.connScore), rfl,
        List.chain'_singleton bm⟩
    rw [if_neg hch]
    rw [if_update_eq_max bm p.mainScore]
    by_cases hmh : p.mainHit = true
    · rw [if_pos hmh]
      exact ⟨rfl, List.chain'_pair.mpr (le_max_left bc p.connScore), rfl,
        List.chain'_pair.mpr (le_max_left bm p.mainScore)⟩
    rw [if_neg hmh]
    by_cases hcd : p.tNow - lc < CLICK_COOLDOWN
    · rw [if_pos hcd]
      obtain ⟨h1, h2, h3, h4⟩ := ih lc (max bc p.connScore) (max bm p.mainScore)
      exact ⟨by rw [List.foldl_cons]; exact h1,
        List.chain'_cons.mpr ⟨le_max_left bc p.connScore, h2⟩,
        by rw [List.foldl_cons]; exact h3,
        List.chain'_cons.mpr ⟨le_max_left bm p.mainScore, h4⟩⟩
    rw [if_neg hcd]
    by_cases hfg : p.fgOk = true
    · rw [if_neg (not_not_intro hfg)]
      rcases hsp : p.safePoint with _ | pt
      · simp only [hsp]
        exact ⟨rfl, List.chain'_pair.mpr (le_max_left bc p.connScore), rfl,
          List.chain'_pair.mpr (le_max_left bm p.mainScore)⟩
      · simp only [hsp]
        obtain ⟨h1, h2, h3, h4⟩ := ih p.tNow (max bc p.connScore) (max bm p.mainScore)
        exact ⟨by rw [List.foldl_cons]; exact h1,
          List.chain'_cons.mpr ⟨le_max_left bc p.connScore, h2⟩,
          by rw [List.foldl_cons]; exact h3,
          List.chain'_cons.mpr ⟨le_max_left bm p.mainScore, h4⟩⟩
    · rw [if_pos hfg]
      exact ⟨rfl, List.chain'_pair.mpr (le_max_left bc p.connScore), rfl,
        List.chain'_pair.mpr (le_max_left bm p.mainScore)⟩

/-- A first WaitLogin poll inside the deadline that raises nothing updates the
connecting tracker whenever its connecting score strictly exceeds it, and,
when the connecting marker does not hit, updates the main-menu tracker
whenever its main-menu score strictly exceeds it. -/
theorem wait_login_first_update (timeout start lc bc bm : ℚ) (p : LoginPoll)
    (rest : List LoginPoll) (hdl : p.tGuard - start ≤ timeout)
    (hr : p.raises = none) :
    (bc < p.connScore →
      (wait_login_with_safe_clicks timeout start lc bc bm (p :: rest)).connUpdates.head? =
        some p.connScore) ∧
    (p.connHit = false → bm < p.mainScore →
      (wait_login_with_safe_clicks timeout start lc bc bm (p :: rest)).mainUpdates.head? =
        some p.mainScore) := by
  simp only [wait_login_with_safe_clicks]
  rw [if_neg (not_lt.mpr hdl)]
  simp only [hr]
  constructor
  · intro hs
    simp only [if_pos hs]
    by_cases hch : p.connHit = true
    · rw [if_pos hch]
      rfl
    rw [if_neg hch]
    by_cases hmh : p.mainHit = true
    · rw [if_pos hmh]
      rfl
    rw [if_neg hmh]
    by_cases hcd : p.tNow - lc < CLICK_COOLDOWN
    · rw [if_pos hcd]
      rfl
    rw [if_neg hcd]
    by_cases hfg : p.fgOk = true
    · rw [if_neg (not_not_intro hfg)]
      rcases hsp : p.safePoint with _ | pt
      · simp only [hsp]
        rfl
      · simp only [hsp]
        rfl
    · rw [if_pos hfg]
      rfl
  · intro hch hs
    rw [if_neg (by rw [hch]; exact Bool.false_ne_true)]
    simp only [if_pos hs]
    by_cases hmh : p.mainHit = true
    · rw [if_pos hmh]
      rfl
    rw [if_neg hmh]
    by_cases hcd : p.tNow - lc < CLICK_COOLDOWN
    · rw [if_pos hcd]
      rfl
    rw [if_neg hcd]
    by_cases hfg : p.fgOk = true
    · rw [if_neg (not_not_intro hfg)]
      rcases hsp : p.safePoint with _ | pt
      · simp only [hsp]
        rfl
      · simp only [hsp]
        rfl
    · rw [if_pos hfg]
      rfl

/-- Claim C3 counterexample: -1.0 is a valid normalised-correlation score (it
lies in the metric's range [-1, 1]), yet the tracker's sentinel is exactly
-1.0, not strictly lower than every valid score, and on a wait whose first
poll observes the valid score -1.0 no best-score update registers: the update
log of the whole wait stays empty. -/
theorem best_score_sentinel_cex :
    markerNegPoll.score = -1 ∧ (-1 : ℚ) ≤ markerNegPoll.score ∧ markerNegPoll.score ≤ 1 ∧
    ¬ ((-1 : ℚ) < markerNegPoll.score) ∧
    (wait_for_marker STATE_TIMEOUTS_S3_WAIT_MAINMENU 0 (-1) [markerNegPoll]).updates = [] := by
  refine ⟨rfl, le_refl _, by norm_num [markerNegPoll], by norm_num [markerNegPoll], ?_⟩
  simp only [wait_for_marker, markerNegPoll]
  rw [if_neg (by norm_num [STATE_TIMEOUTS_S3_WAIT_MAINMENU])]
  rw [if_neg (lt_irrefl (-1 : ℚ))]
  rfl

/-- Claim C3 (amended): for every wait loop (wait_for_marker and both trackers
of wait_login_with_safe_clicks), the best-score tracker is monotonically
non-decreasing across the poll iterations of a single wait, at wait end equals
the fold by max of every observed score over the sentinel — so it bounds every
observed score and is attained by one of them unless it stayed at the
sentinel — and is initialised to the sentinel -1.0, which does not exceed any
valid score, so the first poll's score registers as an update whenever it
strictly exceeds the sentinel. -/
theorem best_score_tracker_props (timeout start timeout2 start2 lc : ℚ)
    (mPolls : List MarkerPoll) (lPolls : List LoginPoll) :
    List.Chain' (· ≤ ·)
      ((-1 : ℚ) :: (wait_for_marker timeout start (-1) mPolls).bestTrace) ∧
    (wait_for_marker timeout start (-1) mPolls).best =
      (wait_for_marker timeout start (-1) mPolls).scores.foldl max (-1) ∧
    (∀ x ∈ (wait_for_marker timeout start (-1) mPolls).scores,
      x ≤ (wait_for_marker timeout start (-1) mPolls).best) ∧
    ((wait_for_marker timeout start (-1) mPolls).best = -1 ∨
      (wait_for_marker timeout start (-1) mPolls).best ∈
        (wait_for_marker timeout start (-1) mPolls).scores) ∧
    (∀ p rest, mPolls = p :: rest → p.tGuard - start ≤ timeout → p.raises = none →
      -1 < p.score →
      (wait_for_marker timeout start (-1) mPolls).updates.head? = some p.score) ∧
    List.Chain' (· ≤ ·)
      ((-1 : ℚ) :: (wait_login_with_safe_clicks timeout2 start2 lc (-1) (-1) lPolls).connTrace) ∧
    (wait_login_with_safe_clicks timeout2 start2 lc (-1) (-1) lPolls).best_connecting =
      (wait_login_with_safe_clicks timeout2 start2 lc (-1) (-1) lPolls).connScores.foldl max (-1) ∧
    (∀ x ∈ (wait_login_with_safe_clicks timeout2 start2 lc (-1) (-1) lPolls).connScores,
      x ≤ (wait_login_with_safe_clicks timeout2 start2 lc (-1) (-1) lPolls).best_connecting) ∧
    ((wait_login_with_safe_clicks timeout2 start2 lc (-1) (-1) lPolls).best_connecting = -1 ∨
      (wait_login_with_safe_clicks timeout2 start2 lc (-1) (-1) lPolls).best_connecting ∈
        (wait_login_with_safe_clicks timeout2 start2 lc (-1) (-1) lPolls).connScores) ∧
    (∀ p rest, lPolls = p :: rest → p.tGuard - start2 ≤ timeout2 → p.raises = none →
      -1 < p.connScore →
      (wait_login_with_safe_clicks timeout2 start2 lc (-1) (-1) lPolls).connUpdates.head? =
        some p.connScore) ∧
    List.Chain' (· ≤ ·)
      ((-1 : ℚ) :: (wait_login_with_safe_clicks timeout2 start2 lc (-1) (-1) lPolls).mainTrace) ∧
    (wait_login_with_safe_clicks timeout2 start2 lc (-1) (-1) lPolls).best_mainmenu =
      (wait_login_with_safe_clicks timeout2 start2 lc (-1) (-1) lPolls).mainScores.foldl max (-1) ∧
    (∀ x ∈ (wait_login_with_safe_clicks timeout2 start2 lc (-1) (-1) lPolls).mainScores,
      x ≤ (wait_login_with_safe_clicks timeout2 start2 lc (-1) (-1) lPolls).best_mainmenu) ∧
    ((wait_login_with_safe_clicks timeout2 start2 lc (-1) (-1) lPolls).best_mainmenu = -1 ∨
      (wait_login_with_safe_clicks timeout2 start2 lc (-1) (-1) lPolls).best_mainmenu ∈
        (wait_login_with_safe_clicks timeout2 start2 lc (-1) (-1) lPolls).mainScores) ∧
    (∀ p rest, lPolls = p :: rest → p.tGuard - start2 ≤ timeout2 → p.raises = none →
      p.connHit = false → -1 < p.mainScore →
      (wait_login_with_safe_clicks timeout2 start2 lc (-1) (-1) lPolls).mainUpdates.head? =
        some p.mainScore) := by
  obtain ⟨hm1, hm2⟩ := wait_for_marker_best timeout start mPolls (-1)
  obtain ⟨hl1, hl2, hl3, hl4⟩ := wait_login_best timeout2 start2 lPolls lc (-1) (-1)
  refine ⟨hm2, hm1, ?_, ?_, ?_, hl2, hl1, ?_, ?_, ?_, hl4, hl3, ?_, ?_, ?_⟩
  · intro x hx
    rw [hm1]
    exact mem_le_foldl_max _ _ x hx
  · rw [hm1]
    exact foldl_max_attained _ _
  · intro p rest hp hdl hr hs
    subst hp
    exact wait_for_marker_first_update timeout start (-1) p rest hdl hr hs
  · intro x hx
    rw [hl1]
    exact mem_le_foldl_max _ _ x hx
  · rw [hl1]
    exact foldl_max_attained _ _
  · intro p rest hp hdl hr hs
    subst hp
    exact (wait_login_first_update timeout2 start2 lc (-1) (-1) p rest hdl hr).1 hs
  · intro x hx
    rw [hl3]
    exact mem_le_foldl_max _ _ x hx
  · rw [hl3]
    exact foldl_max_attained _ _
  · intro p rest hp hdl hr hch hs
    subst hp
    exact (wait_login_first_update timeout2 start2 lc (-1) (-1) p rest hdl hr).2 hch hs

/-! ## Click cooldown -/

/-- Within one WaitLogin wait every injected click is recorded at a time at
least CLICK_COOLDOWN after the previously recorded click timestamp, starting
from the incoming last_click value. -/
theorem wait_login_clicks_chain (timeout start : ℚ) (polls : List LoginPoll) :
    ∀ lc bc bm : ℚ,
      List.Chain' (fun a b => CLICK_COOLDOWN ≤ b - a)
        (lc :: (wait_login_with_safe_clicks timeout start lc bc bm polls).clicks) := by
  induction polls with
  | nil => intro lc bc bm; simp [wait_login_with_safe_clicks]
  | cons p rest ih =>
    intro lc bc bm
    simp only [wait_login_with_safe_clicks]
    by_cases ht : timeout < p.tGuard - start
    · rw [if_pos ht]
      simp
    rw [if_neg ht]
    rcases hr : p.raises with _ | e
    swap
    · simp [hr]
    simp only [hr]
    by_cases hch : p.connHit = true
    · rw [if_pos hch]
      simp
    rw [if_neg hch]
    by_cases hmh : p.mainHit = true
    · rw [if_pos hmh]
      simp
    rw [if_neg hmh]
    by_cases hcd : p.tNow - lc < CLICK_COOLDOWN
    · rw [if_pos hcd]
      exact ih lc _ _
    rw [if_neg hcd]
    by_cases hfg : p.fgOk = true
    · rw [if_neg (not_not_intro hfg)]
      rcases hsp : p.safePoint with _ | pt
      · simp only [hsp]
        simp
      · simp only [hsp]
        exact List.chain'_cons.mpr ⟨not_lt.mp hcd, ih p.tNow _ _⟩
    · rw [if_pos hfg]
      simp

/-- Claim C4: across any WaitLogin wait, any two consecutive injected clicks
are at least CLICK_COOLDOWN apart (including the first click relative to the
incoming last-click timestamp), and an in-deadline iteration whose elapsed
time since the last recorded click is below the cooldown injects no click and
only re-observes: its click record and result are exactly those of the
remaining iterations with the trackers updated. -/
theorem click_cooldown_invariant (timeout start lc bc bm : ℚ) (polls : List LoginPoll) :
    List.Chain' (fun a b => CLICK_COOLDOWN ≤ b - a)
      (lc :: (wait_login_with_safe_clicks timeout start lc bc bm polls).clicks) ∧
    (∀ p rest, polls = p :: rest → p.tGuard - start ≤ timeout → p.raises = none →
      p.connHit = false → p.mainHit = false → p.tNow - lc < CLICK_COOLDOWN →
      (wait_login_with_safe_clicks timeout start lc bc bm polls).clicks =
        (wait_login_with_safe_clicks timeout start lc
          (if bc < p.connScore then p.connScore else bc)
          (if bm < p.mainScore then p.mainScore else bm) rest).clicks ∧
      (wait_login_with_safe_clicks timeout start lc bc bm polls).res =
        (wait_login_with_safe_clicks timeout start lc
          (if bc < p.connScore then p.connScore else bc)
          (if bm < p.mainScore then p.mainScore else bm) rest).res) := by
  constructor
  · exact wait_login_clicks_chain timeout start polls lc bc bm
  · intro p rest hp hdl hr hch hmh hcd
    subst hp
    simp only [wait_login_with_safe_clicks]
    rw [if_neg (not_lt.mpr hdl)]
    simp only [hr]
    rw [if_neg (by rw [hch]; exact Bool.false_ne_true)]
    rw [if_neg (by rw [hmh]; exact Bool.false_ne_true)]
    rw [if_pos hcd]
    exact ⟨rfl, rfl⟩

/-! ## The run dispatcher -/

/-- Unfolding of one dispatcher step in S0_START. -/
theorem runLoop_S0 (sc : Script) (fuel : Nat) (trace : List State) :
    runLoop sc (fuel + 1) .S0_START trace =
      if ¬ sc.ensure_game_running then
        (.failure (fail .S0_START .processNotFound), trace)
      else
        match wait_game_ready sc.readyStart sc.readyPolls with
        | .timedOut => (.failure (fail .S0_START .readyTimeout), trace)
        | .outOfScript => (.outOfScript, trace)
        | .ready _ =>
          if ¬ sc.fg0 then (.failure (fail .S0_START .focusFailed), trace)
          else runLoop sc fuel .S1_WAIT_LOGIN (trace ++ [.S1_WAIT_LOGIN]) := rfl

/-- Unfolding of one dispatcher step in S1_WAIT_LOGIN. -/
theorem runLoop_S1 (sc : Script) (fuel : Nat) (trace : List State) :
    runLoop sc (fuel + 1) .S1_WAIT_LOGIN trace =
      match (wait_login_with_safe_clicks STATE_TIMEOUTS_S1_WAIT_LOGIN
          sc.loginStart 0 (-1) (-1) sc.loginPolls).res with
      | .next s => runLoop sc fuel s (trace ++ [s])
      | .failed r => (.failure (fail .S1_WAIT_LOGIN r), trace)
      | .raised e => (.failure (fail .S1_WAIT_LOGIN (.exceptionCaught e)), trace)
      | .outOfScript => (.outOfScript, trace) := rfl

/-- Unfolding of one dispatcher step in S3_WAIT_MAINMENU. -/
theorem runLoop_S3 (sc : Script) (fuel : Nat) (trace : List State) :
    runLoop sc (fuel + 1) .S3_WAIT_MAINMENU trace =
      match (wait_for_marker STATE_TIMEOUTS_S3_WAIT_MAINMENU sc.menuStart (-1) sc.menuPolls).res with
      | .done none =>
        (.failure (fail .S3_WAIT_MAINMENU (.mainmenuTimeout
          (wait_for_marker STATE_TIMEOUTS_S3_WAIT_MAINMENU sc.menuStart (-1) sc.menuPolls).best)),
         trace)
      | .done (some _) => (.success, trace ++ [.S_OK])
      | .raised e => (.failure (fail .S3_WAIT_MAINMENU (.exceptionCaught e)), trace)
      | .outOfScript => (.outOfScript, trace) := rfl

/-- Unfolding of one dispatcher step in S_OK. -/
theorem runLoop_SOK (sc : Script) (fuel : Nat) (trace : List State) :
    runLoop sc (fuel + 1) .S_OK trace = (.success, trace) := rfl

/-- The WaitLogin variant wired into run only ever hands back the states
S3_WAIT_MAINMENU or S_OK as its next state. -/
theorem wait_login_next_states (timeout start : ℚ) (polls : List LoginPoll) :
    ∀ lc bc bm s,
      (wait_login_with_safe_clicks timeout start lc bc bm polls).res = .next s →
      s = .S3_WAIT_MAINMENU ∨ s = .S_OK := by
  induction polls with
  | nil =>
    intro lc bc bm s h
    exact absurd h (by simp [wait_login_with_safe_clicks])
  | cons p rest ih =>
    intro lc bc bm s h
    simp only [wait_login_with_safe_clicks] at h
    by_cases ht : timeout < p.tGuard - start
    · rw [if_pos ht] at h
      exact nomatch h
    rw [if_neg ht] at h
    rcases hr : p.raises with _ | e
    swap
    · rw [hr] at h
      exact nomatch h
    rw [hr] at h
    by_cases hch : p.connHit = true
    · rw [if_pos hch] at h
      cases h
      exact Or.inl rfl
    rw [if_neg hch] at h
    by_cases hmh : p.mainHit = true
    · rw [if_pos hmh] at h
      cases h
      exact Or.inr rfl
    rw [if_neg hmh] at h
    by_cases hcd : p.tNow - lc < CLICK_COOLDOWN
    · rw [if_pos hcd] at h
      exact ih lc _ _ s h
    rw [if_neg hcd] at h
    by_cases hfg : p.fgOk = true
    · rw [if_neg (not_not_intro hfg)] at h
      rcases hsp : p.safePoint with _ | pt
      · rw [hsp] at h
        exact nomatch h
      · rw [hsp] at h
        exact ih p.tNow _ _ s h
    · rw [if_pos hfg] at h
      exact nomatch h

/-- Exhaustive enumeration of the runs of the dispatcher from the initial
state: every run fails in S0, S1 or S3 through the fail routine, succeeds
after visiting S_OK, or exhausts its script, with the state trace determined
accordingly. -/
theorem run_cases (sc : Script) :
    (∃ r, run sc = (.failure ⟨.S0_START, r, true, true, 1⟩, [.S0_START])) ∨
    run sc = (.outOfScript, [.S0_START]) ∨
    (∃ r, run sc = (.failure ⟨.S1_WAIT_LOGIN, r, true, true, 1⟩,
      [.S0_START, .S1_WAIT_LOGIN])) ∨
    run sc = (.outOfScript, [.S0_START, .S1_WAIT_LOGIN]) ∨
    run sc = (.success, [.S0_START, .S1_WAIT_LOGIN, .S_OK]) ∨
    (∃ r, run sc = (.failure ⟨.S3_WAIT_MAINMENU, r, true, true, 1⟩,
      [.S0_START, .S1_WAIT_LOGIN, .S3_WAIT_MAINMENU])) ∨
    run sc = (.outOfScript, [.S0_START, .S1_WAIT_LOGIN, .S3_WAIT_MAINMENU]) ∨
    run sc = (.success, [.S0_START, .S1_WAIT_LOGIN, .S3_WAIT_MAINMENU, .S_OK]) := by
  unfold run
  rw [show (6 : Nat) = 5 + 1 from rfl, runLoop_S0]
  by_cases h1 : sc.ensure_game_running = true
  swap
  · rw [if_pos h1]
    exact Or.inl ⟨.processNotFound, rfl⟩
  rw [if_neg (not_not_intro h1)]
  rcases hwr : wait_game_ready sc.readyStart sc.readyPolls with n | _ | _
  rotate_left
  · exact Or.inl ⟨.readyTimeout, by simp [hwr, fail]⟩
  · exact Or.inr (Or.inl (by simp [hwr, fail]))
  simp only [hwr]
  by_cases h2 : sc.fg0 = true
  swap
  · rw [if_pos h2]
    exact Or.inl ⟨.focusFailed, rfl⟩
  rw [if_neg (not_not_intro h2)]
  rw [show (5 : Nat) = 4 + 1 from rfl, runLoop_S1]
  rcases hlr : (wait_login_with_safe_clicks STATE_TIMEOUTS_S1_WAIT_LOGIN
      sc.loginStart 0 (-1) (-1) sc.loginPolls).res with s | r | e | _
  rotate_left
  · exact Or.inr (Or.inr (Or.inl ⟨r, by simp [hlr, fail]⟩))
  · exact Or.inr (Or.inr (Or.inl ⟨.exceptionCaught e, by simp [hlr, fail]⟩))
  · exact Or.inr (Or.inr (Or.inr (Or.inl (by simp [hlr, fail]))))
  simp only [hlr]
  rcases wait_login_next_states STATE_TIMEOUTS_S1_WAIT_LOGIN sc.loginStart
      sc.loginPolls 0 (-1) (-1) s hlr with rfl | rfl
  · rw [show (4 : Nat) = 3 + 1 from rfl, runLoop_S3]
    rcases hmr : (wait_for_marker STATE_TIMEOUTS_S3_WAIT_MAINMENU sc.menuStart
        (-1) sc.menuPolls).res with pos | e | _
    rotate_left
    · exact Or.inr (Or.inr (Or.inr (Or.inr (Or.inr (Or.inl
        ⟨.exceptionCaught e, by simp [hmr, fail]⟩)))))
    · exact Or.inr (Or.inr (Or.inr (Or.inr (Or.inr (Or.inr (Or.inl (by simp [hmr, fail])))))))
    rcases pos with _ | pt
    · exact Or.inr (Or.inr (Or.inr (Or.inr (Or.inr (Or.inl
        ⟨.mainmenuTimeout (wait_for_marker STATE_TIMEOUTS_S3_WAIT_MAINMENU
          sc.menuStart (-1) sc.menuPolls).best, by simp [hmr, fail]⟩)))))
    · exact Or.inr (Or.inr (Or.inr (Or.inr (Or.inr (Or.inr (Or.inr (by simp [hmr, fail])))))))
  · rw [show (4 : Nat) = 3 + 1 from rfl, runLoop_SOK]
    exact Or.inr (Or.inr (Or.inr (Or.inr (Or.inl (by simp)))))

/-- Claim C1: for every scripted sequence of collaborator and Matcher
responses, the state trace of run starts at S0_START, follows the transition
table of section 4.1 step by step, reaches the terminal S_OK at most once and
only as the last visited state, succeeds exactly when S_OK was visited, only
invokes the Fail outcome from a state the table lets fail (so terminal states
are never repeated or skipped), and every successful WaitLogin exit goes
directly to S3_WAIT_MAINMENU or S_OK, as the multi-marker variant of the
table prescribes. -/
theorem state_machine_table (sc : Script) :
    ((run sc).2).head? = some State.S0_START ∧
    List.Chain' (fun a b => specStep a b = true) (run sc).2 ∧
    ((run sc).1 = RunResult.success ↔ ((run sc).2).getLast? = some State.S_OK) ∧
    (State.S_OK ∈ (run sc).2 → ((run sc).2).getLast? = some State.S_OK ∧
      ((run sc).2).count State.S_OK = 1) ∧
    (∀ f, (run sc).1 = RunResult.failure f → specStep f.state State.S_FAIL = true) ∧
    List.Chain' (fun a b => a = State.S1_WAIT_LOGIN →
      b = State.S3_WAIT_MAINMENU ∨ b = State.S_OK) (run sc).2 := by
  rcases run_cases sc with ⟨r, h⟩ | h | ⟨r, h⟩ | h | h | ⟨r, h⟩ | h | h <;> rw [h] <;>
    refine ⟨rfl, ?_, ?_, ?_, ?_, ?_⟩ <;>
    first
      | exact List.chain'_singleton _
      | simp [List.chain'_cons, List.chain'_singleton, specStep]
      | exact ⟨fun hx => nomatch hx, fun hx => nomatch hx⟩
      | exact ⟨fun hx => rfl, fun hx => rfl⟩
      | (intro hx; exact ⟨rfl, rfl⟩)
      | (intro hx; simp at hx)
      | (intro f hf; injection hf with h2; subst h2; rfl)
      | (intro f hf; exact nomatch hf)

/-- Claim C9: the engine never enters S2_CLICK_LOGIN — no run trace contains
it, because wait_login_with_safe_clicks only ever returns S3_WAIT_MAINMENU or
S_OK as a next state and nothing else assigns the current state, so the
ClickLogin branch of run is unreachable from the initial state. -/
theorem click_login_unreachable (sc : Script) :
    State.S2_CLICK_LOGIN ∉ (run sc).2 ∧
    (∀ timeout start lc bc bm polls s,
      (wait_login_with_safe_clicks timeout start lc bc bm polls).res = LoginRes.next s →
      s = State.S3_WAIT_MAINMENU ∨ s = State.S_OK) := by
  constructor
  · rcases run_cases sc with ⟨r, h⟩ | h | ⟨r, h⟩ | h | h | ⟨r, h⟩ | h | h <;>
      rw [h] <;> simp
  · intro timeout start lc bc bm polls s h
    exact wait_login_next_states timeout start polls lc bc bm s h

/-- Claim C8: any exception escaping a WaitLogin poll is caught at the top
level of run and mapped to the Fail outcome in the current state with the
exception description as the reason, and every failure whatsoever goes
through the single fail routine — screenshot saved, process termination
requested, exit code 1 (non-zero). -/
theorem unexpected_fault_to_fail (sc : Script) (e : String)
    (h1 : sc.ensure_game_running = true)
    (h2 : ∃ n, wait_game_ready sc.readyStart sc.readyPolls = ReadyRes.ready n)
    (h3 : sc.fg0 = true)
    (h4 : (wait_login_with_safe_clicks STATE_TIMEOUTS_S1_WAIT_LOGIN sc.loginStart 0
      (-1) (-1) sc.loginPolls).res = LoginRes.raised e) :
    run sc = (.failure ⟨.S1_WAIT_LOGIN, .exceptionCaught e, true, true, 1⟩,
      [.S0_START, .S1_WAIT_LOGIN]) ∧
    (∀ sc3 e3, sc3.ensure_game_running = true →
      (∃ n, wait_game_ready sc3.readyStart sc3.readyPolls = ReadyRes.ready n) →
      sc3.fg0 = true →
      (wait_login_with_safe_clicks STATE_TIMEOUTS_S1_WAIT_LOGIN sc3.loginStart 0 (-1) (-1)
        sc3.loginPolls).res = LoginRes.next .S3_WAIT_MAINMENU →
      (wait_for_marker STATE_TIMEOUTS_S3_WAIT_MAINMENU sc3.menuStart (-1) sc3.menuPolls).res =
        MarkerRes.raised e3 →
      run sc3 = (.failure ⟨.S3_WAIT_MAINMENU, .exceptionCaught e3, true, true, 1⟩,
        [.S0_START, .S1_WAIT_LOGIN, .S3_WAIT_MAINMENU])) ∧
    (∀ sc2 f tr, run sc2 = (RunResult.failure f, tr) →
      f.screenshotSaved = true ∧ f.killRequested = true ∧ f.exitCode = 1) := by
  refine ⟨?_, ?_, ?_⟩
  · obtain ⟨n, hn⟩ := h2
    unfold run
    rw [show (6 : Nat) = 5 + 1 from rfl, runLoop_S0]
    rw [if_neg (not_not_intro h1)]
    simp only [hn]
    rw [if_neg (not_not_intro h3)]
    rw [show (5 : Nat) = 4 + 1 from rfl, runLoop_S1]
    simp only [h4]
    simp [fail]
  · intro sc3 e3 k1 k2 k3 k4 k5
    obtain ⟨n, hn⟩ := k2
    unfold run
    rw [show (6 : Nat) = 5 + 1 from rfl, runLoop_S0]
    rw [if_neg (not_not_intro k1)]
    simp only [hn]
    rw [if_neg (not_not_intro k3)]
    rw [show (5 : Nat) = 4 + 1 from rfl, runLoop_S1]
    simp only [k4]
    rw [show (4 : Nat) = 3 + 1 from rfl, runLoop_S3]
    simp only [k5]
    simp [fail]
  · intro sc2 f tr hf
    rcases run_cases sc2 with ⟨r, h⟩ | h | ⟨r, h⟩ | h | h | ⟨r, h⟩ | h | h <;>
      rw [h] at hf
    · injection hf with hf1 hf2
      injection hf1 with hf3
      subst hf3
      exact ⟨rfl, rfl, rfl⟩
    · injection hf with hf1 hf2
      exact nomatch hf1
    · injection hf with hf1 hf2
      injection hf1 with hf3
      subst hf3
      exact ⟨rfl, rfl, rfl⟩
    · injection hf with hf1 hf2
      exact nomatch hf1
    · injection hf with hf1 hf2
      exact nomatch hf1
    · injection hf with hf1 hf2
      injection hf1 with hf3
      subst hf3
      exact ⟨rfl, rfl, rfl⟩
    · injection hf with hf1 hf2
      exact nomatch hf1
    · injection hf with hf1 hf2
      exact nomatch hf1

/-- wait_game_ready on the demonstration poll declares readiness immediately:
the handle exists and focus succeeds is irrelevant here since the bright frame
already satisfies the frame side of the disjunction. -/
theorem readyDemo_ready : wait_game_ready 0 [readyDemo] = .ready 0 := by
  simp only [wait_game_ready, readyDemo]
  rw [if_neg (by norm_num [GAME_READY_TIMEOUT])]
  norm_num [is_mostly_black, imgBright, NDImage.size, NDImage.ndim, grayPixels,
    NDImage.dim]

/-- The WaitLogin wait of the demonstration script raises at its first poll. -/
theorem scriptRaise_login :
    (wait_login_with_safe_clicks STATE_TIMEOUTS_S1_WAIT_LOGIN 0 0 (-1) (-1)
      [loginRaisePoll]).res = .raised boomMsg := by
  simp only [wait_login_with_safe_clicks, loginRaisePoll]
  rw [if_neg (by norm_num [STATE_TIMEOUTS_S1_WAIT_LOGIN])]

/-- Claim C8 witness: on the concrete script whose first WaitLogin poll raises
an exception, the run ends as a Fail outcome in S1_WAIT_LOGIN carrying the
exception description, with the screenshot, the kill request and exit code 1. -/
theorem unexpected_fault_to_fail_witness :
    run scriptRaise = (.failure ⟨.S1_WAIT_LOGIN, .exceptionCaught boomMsg, true, true, 1⟩,
      [.S0_START, .S1_WAIT_LOGIN]) :=
  (unexpected_fault_to_fail scriptRaise boomMsg rfl ⟨0, readyDemo_ready⟩ rfl
    scriptRaise_login).1

end Limbus
